import Mathlib

/-!
Verification of the noisy_float crate core (src/lib.rs).

The underlying floating-point type is modelled as an idealized float:
an exact rational together with the special values positive infinity,
negative infinity and NaN.  All claims under verification concern only
exactly-representable values and special-value semantics (division by
zero, NaN propagation, comparison totality), which this model captures
faithfully; no rounding is involved in any claim.
-/

/-- Idealized floating-point value: a finite exact rational, one of the
two infinities, or NaN. -/
inductive Fl
| finite (q : ℚ)
| posInf
| negInf
| nan
deriving DecidableEq

/-- NaN test, from the underlying float capability (num_traits Float). -/
def Fl.isNaN : Fl → Bool
| Fl.nan => true
| _ => false

/-- Finiteness test, from the underlying float capability. -/
def Fl.isFinite : Fl → Bool
| Fl.finite _ => true
| _ => false

/-- Infiniteness test, from the underlying float capability. -/
def Fl.isInfinite : Fl → Bool
| Fl.posInf => true
| Fl.negInf => true
| _ => false

/-- IEEE-style division on idealized floats (the native division the
wrapper delegates to): nonzero finite over zero gives a signed infinity,
zero over zero gives NaN, NaN propagates, infinity over infinity is NaN. -/
def Fl.div : Fl → Fl → Fl
| Fl.nan, _ => Fl.nan
| _, Fl.nan => Fl.nan
| Fl.finite a, Fl.finite b =>
    if b = 0 then
      (if a = 0 then Fl.nan else if a > 0 then Fl.posInf else Fl.negInf)
    else Fl.finite (a / b)
| Fl.finite _, Fl.posInf => Fl.finite 0
| Fl.finite _, Fl.negInf => Fl.finite 0
| Fl.posInf, Fl.finite b => if b ≥ 0 then Fl.posInf else Fl.negInf
| Fl.negInf, Fl.finite b => if b ≥ 0 then Fl.negInf else Fl.posInf
| Fl.posInf, Fl.posInf => Fl.nan
| Fl.posInf, Fl.negInf => Fl.nan
| Fl.negInf, Fl.posInf => Fl.nan
| Fl.negInf, Fl.negInf => Fl.nan

/-- IEEE-style strict order on idealized floats (the native comparison the
wrapper delegates to): NaN is incomparable with everything. -/
def Fl.lt : Fl → Fl → Bool
| Fl.nan, _ => false
| _, Fl.nan => false
| Fl.negInf, Fl.negInf => false
| Fl.negInf, _ => true
| _, Fl.negInf => false
| Fl.posInf, _ => false
| _, Fl.posInf => true
| Fl.finite a, Fl.finite b => decide (a < b)

/-- IEEE-style equality on idealized floats (the native equality the
wrapper delegates to): NaN is unequal to everything, itself included. -/
def Fl.beq : Fl → Fl → Bool
| Fl.nan, _ => false
| _, Fl.nan => false
| Fl.posInf, Fl.posInf => true
| Fl.negInf, Fl.negInf => true
| Fl.posInf, _ => false
| _, Fl.posInf => false
| Fl.negInf, _ => false
| _, Fl.negInf => false
| Fl.finite a, Fl.finite b => decide (a = b)

/-- Embedding of the FloatChecker trait (src/lib.rs lines 89-98): a
validity predicate together with the enforcement strength of its assert
in the current build.  assertEnforced is true for a checker whose assert
uses an unconditional assert, or a debug-only assert in a debug build;
it is false for a debug-only assert compiled to a no-op in an optimized
build (both strengths are sanctioned by the trait documentation). -/
structure Checker where
  check : Fl → Bool
  assertEnforced : Bool

/-- The assert function of the trait contract: signals failure (modelled
as none, the embedding of a panic) exactly when enforcement is active and
the value fails check; otherwise returns normally. -/
def Checker.assert (c : Checker) (v : Fl) : Option Unit :=
  if c.assertEnforced ∧ c.check v = false then none else some ()

/-- Embedding of struct NoisyFloat (src/lib.rs lines 102-105): the stored
raw value; the checker tag is carried as a type-level parameter, mirroring
the PhantomData field. -/
structure NoisyFloat (c : Checker) where
  value : Fl
deriving DecidableEq

/-- Embedding of NoisyFloat::unchecked_new (src/lib.rs lines 115-121):
wraps without validation. -/
def NoisyFloat.unchecked_new (c : Checker) (v : Fl) : NoisyFloat c :=
  { value := v }

/-- Embedding of NoisyFloat::new (src/lib.rs lines 109-113): invokes the
checker's assert, then wraps unchecked.  A panic of the assert is
modelled as the none outcome. -/
def NoisyFloat.new (c : Checker) (v : Fl) : Option (NoisyFloat c) :=
  match c.assert v with
  | some _ => some (NoisyFloat.unchecked_new c v)
  | none => none

/-- Embedding of NoisyFloat::try_new (src/lib.rs lines 123-133): returns
a wrapper holding the value when check passes, none otherwise.  The
function is total: no code path signals failure. -/
def NoisyFloat.try_new (c : Checker) (v : Fl) : Option (NoisyFloat c) :=
  if c.check v = true then some { value := v } else none

/-- Embedding of NoisyFloat::raw (src/lib.rs lines 135-138): consumes the
wrapper and returns the underlying value, with no validation. -/
def NoisyFloat.raw {c : Checker} (x : NoisyFloat c) : Fl :=
  x.value

/-- Modelled from the spec: the checkers module (declared in src/lib.rs
but its file is absent) supplies a NaN-rejecting checker (check is true
exactly for non-NaN values); per the crate documentation its assert is a
debug-only assert, here in its debug-build (enforced) configuration. -/
def numChecker : Checker :=
  { check := fun v => !v.isNaN, assertEnforced := true }

/-- Modelled from the spec: the checkers module also supplies a
finite-only checker (check is true exactly for finite values); debug-build
(enforced) configuration. -/
def finiteChecker : Checker :=
  { check := fun v => v.isFinite, assertEnforced := true }

/-- A NaN-rejecting checker whose debug-only assert is compiled to a
no-op (optimized-build configuration), sanctioned by the FloatChecker
trait documentation (src/lib.rs line 96). -/
def noopNanChecker : Checker :=
  { check := fun v => !v.isNaN, assertEnforced := false }

/-- The formatting capability of the underlying float type (external to
the crate): the four formatting behaviors the four fmt impls delegate to. -/
structure FloatFmt where
  debugStr : Fl → String
  displayStr : Fl → String
  lowerExpStr : Fl → String
  upperExpStr : Fl → String

/-- Embedding of the fmt::Debug impl for NoisyFloat (src/lib.rs lines
159-164): delegates to the Debug formatting of the stored value. -/
def NoisyFloat.fmtDebug (ff : FloatFmt) {c : Checker} (x : NoisyFloat c) : String :=
  ff.debugStr x.value

/-- Embedding of the fmt::Display impl for NoisyFloat (src/lib.rs lines
166-171): delegates to the Display formatting of the stored value. -/
def NoisyFloat.fmtDisplay (ff : FloatFmt) {c : Checker} (x : NoisyFloat c) : String :=
  ff.displayStr x.value

/-- Embedding of the fmt::LowerExp impl for NoisyFloat (src/lib.rs lines
173-178): delegates to the LowerExp formatting of the stored value. -/
def NoisyFloat.fmtLowerExp (ff : FloatFmt) {c : Checker} (x : NoisyFloat c) : String :=
  ff.lowerExpStr x.value

/-- Embedding of the fmt::UpperExp impl for NoisyFloat (src/lib.rs lines
180-185): delegates to the UpperExp formatting of the stored value. -/
def NoisyFloat.fmtUpperExp (ff : FloatFmt) {c : Checker} (x : NoisyFloat c) : String :=
  ff.upperExpStr x.value

/-- Modelled from the spec: the Div implementation in the float_impl
module (declared in src/lib.rs but its file is absent) computes the
native result from the operands' raw values and re-validates it through
the checked-construct path before wrapping. -/
def NoisyFloat.div {c : Checker} (a b : NoisyFloat c) : Option (NoisyFloat c) :=
  NoisyFloat.new c (Fl.div a.value b.value)

/-- Modelled from the spec: the PartialOrd/Ord implementations in the
absent float_impl module delegate to the underlying native ordering of
the raw values. -/
def NoisyFloat.lt {c : Checker} (a b : NoisyFloat c) : Bool :=
  Fl.lt a.value b.value

/-- Modelled from the spec: the PartialEq/Eq implementations in the
absent float_impl module delegate to the underlying native equality of
the raw values. -/
def NoisyFloat.beq {c : Checker} (a b : NoisyFloat c) : Bool :=
  Fl.beq a.value b.value

/-- Minimum of a sequence of wrappers under the wrapper ordering, as the
standard iterator minimum used in the crate's doc example: none on an
empty sequence, otherwise the least element (first one on ties). -/
def nfMin {c : Checker} (xs : List (NoisyFloat c)) : Option (NoisyFloat c) :=
  xs.foldl
    (fun acc x =>
      match acc with
      | none => some x
      | some a => some (if NoisyFloat.lt x a then x else a))
    none

/-- Maximum of a sequence of wrappers under the wrapper ordering, as the
standard iterator maximum used in the crate's doc example: none on an
empty sequence, otherwise the greatest element (last one on ties). -/
def nfMax {c : Checker} (xs : List (NoisyFloat c)) : Option (NoisyFloat c) :=
  xs.foldl
    (fun acc x =>
      match acc with
      | none => some x
      | some a => some (if NoisyFloat.lt x a then a else x))
    none

/-- The doc-example sequence (src/lib.rs line 58): the values 3.0, -1.5,
71.3 and positive infinity, constructed under the NaN-only checker
through the public fallible constructor. -/
def exampleValues : List (NoisyFloat numChecker) :=
  [Fl.finite 3, Fl.finite (mkRat (-3) 2), Fl.finite (mkRat 713 10), Fl.posInf].filterMap
    (NoisyFloat.try_new numChecker)

/-- A concrete formatting capability used to exercise the fmt impls on
concrete inputs: four distinct constant renderings. -/
def constFmt : FloatFmt :=
  { debugStr := fun _ => "D", displayStr := fun _ => "S",
    lowerExpStr := fun _ => "L", upperExpStr := fun _ => "U" }

lemma check_ne_nan {c : Checker} {x : Fl} (hnan : c.check Fl.nan = false)
    (hx : c.check x = true) : x ≠ Fl.nan := by
  intro h
  rw [h, hnan] at hx
  exact Bool.false_ne_true hx

lemma assert_some_of_check {c : Checker} {v : Fl} (h : c.check v = true) :
    c.assert v = some () := by
  simp [Checker.assert, h]

lemma new_eq_some_of_check {c : Checker} {v : Fl} (h : c.check v = true) :
    NoisyFloat.new c v = some { value := v } := by
  simp [NoisyFloat.new, assert_some_of_check h, NoisyFloat.unchecked_new]

lemma new_eq_none_iff {c : Checker} {v : Fl} :
    NoisyFloat.new c v = none ↔ c.assert v = none := by
  unfold NoisyFloat.new
  cases h : c.assert v <;> simp

lemma assert_none_iff {c : Checker} {v : Fl} :
    c.assert v = none ↔ (c.assertEnforced = true ∧ c.check v = false) := by
  unfold Checker.assert
  by_cases h : (c.assertEnforced = true ∧ c.check v = false) <;> simp [h]

/-- C2: try_new returns a present wrapper holding the input exactly when
check accepts it, and none otherwise; it is a total function (the
embedding has no failure outcome distinct from none), for every input
including NaN. -/
theorem try_new_exact (c : Checker) (v : Fl) :
    (NoisyFloat.try_new c v).isSome = c.check v ∧
    (∀ w : NoisyFloat c, NoisyFloat.try_new c v = some w → w.value = v) := by
  constructor
  · unfold NoisyFloat.try_new
    cases h : c.check v <;> simp [h]
  · intro w hw
    unfold NoisyFloat.try_new at hw
    cases h : c.check v <;> rw [h] at hw <;> simp at hw
    subst hw
    rfl

/-- Witness for try_new_exact at NaN under the NaN-rejecting checker and
at a concrete valid value. -/
theorem try_new_exact_witness :
    (NoisyFloat.try_new numChecker Fl.nan).isSome = numChecker.check Fl.nan ∧
    ({ value := Fl.finite 3 } : NoisyFloat numChecker).value = Fl.finite 3 :=
  ⟨(try_new_exact numChecker Fl.nan).1,
   (try_new_exact numChecker (Fl.finite 3)).2 { value := Fl.finite 3 } (by decide)⟩

/-- C3: for every checker-accepted value, the checked constructor
succeeds and unwrapping the wrapper it built returns the value unchanged. -/
theorem new_raw_roundtrip (c : Checker) (v : Fl) (h : c.check v = true) :
    ∃ w : NoisyFloat c, NoisyFloat.new c v = some w ∧ w.raw = v :=
  ⟨{ value := v }, new_eq_some_of_check h, rfl⟩

/-- Witness for new_raw_roundtrip at the value 5 under the NaN-rejecting
checker. -/
theorem new_raw_roundtrip_witness :
    ∃ w : NoisyFloat numChecker,
      NoisyFloat.new numChecker (Fl.finite 5) = some w ∧ w.raw = Fl.finite 5 :=
  new_raw_roundtrip numChecker (Fl.finite 5) (by decide)

/-- C10: new delegates entirely to the checker's assert: whenever the
assert returns, and in particular for every value whatsoever when the
assert is a compiled-out no-op, new succeeds and the resulting wrapper
holds exactly the input value, with no transformation, clamping or
rejection of its own. -/
theorem new_holds_exact_value (c : Checker) (v : Fl) :
    (∀ u : Unit, c.assert v = some u →
      ∃ w : NoisyFloat c, NoisyFloat.new c v = some w ∧ w.raw = v) ∧
    (c.assertEnforced = false →
      ∃ w : NoisyFloat c, NoisyFloat.new c v = some w ∧ w.raw = v) := by
  constructor
  · intro u hu
    refine ⟨{ value := v }, ?_, rfl⟩
    unfold NoisyFloat.new
    rw [hu]
    rfl
  · intro he
    refine ⟨{ value := v }, ?_, rfl⟩
    unfold NoisyFloat.new Checker.assert NoisyFloat.unchecked_new
    rw [he]
    simp

/-- Witness for new_holds_exact_value: under the no-op-assert NaN
checker, new accepts NaN itself and stores it unchanged. -/
theorem new_holds_exact_value_witness :
    ∃ w : NoisyFloat noopNanChecker,
      NoisyFloat.new noopNanChecker Fl.nan = some w ∧ w.raw = Fl.nan :=
  (new_holds_exact_value noopNanChecker Fl.nan).2 rfl

/-- C1 counterexample: under a checker whose debug-only assert is
compiled to a no-op, the public checked constructor produces a live
instance holding NaN even though the checker's check rejects NaN, so an
invalid value escapes as a live instance. -/
theorem new_can_yield_invalid_instance :
    NoisyFloat.new noopNanChecker Fl.nan = some { value := Fl.nan } ∧
    noopNanChecker.check Fl.nan = false := by
  decide

/-- C1 (amended): every live instance produced by try_new satisfies its
checker's check; every live instance produced by new satisfies it
provided the checker's assert is enforced in the current build (an
unconditional assert, or a debug-only assert in a debug build). -/
theorem constructor_invariant :
    (∀ (c : Checker) (v : Fl) (w : NoisyFloat c),
      NoisyFloat.try_new c v = some w → c.check w.value = true) ∧
    (∀ (c : Checker) (v : Fl) (w : NoisyFloat c),
      c.assertEnforced = true →
      NoisyFloat.new c v = some w → c.check w.value = true) := by
  constructor
  · intro c v w hw
    unfold NoisyFloat.try_new at hw
    cases h : c.check v <;> rw [h] at hw <;> simp at hw
    subst hw
    exact h
  · intro c v w he hw
    unfold NoisyFloat.new at hw
    cases ha : c.assert v <;> rw [ha] at hw <;> simp at hw
    subst hw
    unfold Checker.assert at ha
    by_cases h : c.check v = true
    · exact h
    · rw [if_pos ⟨he, Bool.eq_false_iff.mpr h⟩] at ha
      exact absurd ha (by simp)

/-- Witness for constructor_invariant at concrete constructions under the
NaN-rejecting and the finite-only checkers. -/
theorem constructor_invariant_witness :
    numChecker.check (Fl.finite 3) = true ∧
    finiteChecker.check (Fl.finite 2) = true :=
  ⟨constructor_invariant.1 numChecker (Fl.finite 3) { value := Fl.finite 3 } (by decide),
   constructor_invariant.2 finiteChecker (Fl.finite 2) { value := Fl.finite 2 }
     rfl (by decide)⟩

/-- C4 counterexample: NaN is invalid under the no-op-assert NaN checker,
yet the checked constructor does not fail on it, so new does not fail
exactly when the value is invalid. -/
theorem new_no_failure_on_invalid :
    noopNanChecker.check Fl.nan = false ∧
    NoisyFloat.new noopNanChecker Fl.nan ≠ none := by
  decide

/-- C4 (amended): new invokes the checker's assert before wrapping and
fails exactly when that assert signals failure; the assert signals only
on invalid values, and exactly on invalid values when it is enforced in
the current build; whenever the assert passes, new returns a live
wrapper. -/
theorem new_assert_gate (c : Checker) (v : Fl) :
    (NoisyFloat.new c v = none ↔ c.assert v = none) ∧
    (c.assert v = none → c.check v = false) ∧
    (c.assertEnforced = true → (NoisyFloat.new c v = none ↔ c.check v = false)) ∧
    (∀ u : Unit, c.assert v = some u →
      NoisyFloat.new c v = some (NoisyFloat.unchecked_new c v)) := by
  refine ⟨new_eq_none_iff, ?_, ?_, ?_⟩
  · intro h
    exact (assert_none_iff.mp h).2
  · intro he
    rw [new_eq_none_iff, assert_none_iff]
    simp [he]
  · intro u hu
    unfold NoisyFloat.new
    rw [hu]

/-- Witness for new_assert_gate: under the enforced finite-only checker,
constructing from positive infinity fails and infinity is indeed
invalid. -/
theorem new_assert_gate_witness :
    NoisyFloat.new finiteChecker Fl.posInf = none ∧
    finiteChecker.check Fl.posInf = false :=
  ⟨((new_assert_gate finiteChecker Fl.posInf).2.2.1 rfl).mpr (by decide),
   (new_assert_gate finiteChecker Fl.posInf).2.1 (by decide)⟩

lemma fl_beq_refl (x : Fl) (hx : x ≠ Fl.nan) : Fl.beq x x = true := by
  cases x with
  | nan => exact absurd rfl hx
  | finite q => simp [Fl.beq]
  | posInf => rfl
  | negInf => rfl

lemma fl_beq_symm (x y : Fl) : Fl.beq x y = Fl.beq y x := by
  cases x <;> cases y <;> simp [Fl.beq, eq_comm]

lemma fl_beq_trans {x y z : Fl} (h1 : Fl.beq x y = true) (h2 : Fl.beq y z = true) :
    Fl.beq x z = true := by
  cases x <;> cases y <;> cases z <;> simp_all [Fl.beq]

lemma fl_trichotomy (x y : Fl) (hx : x ≠ Fl.nan) (hy : y ≠ Fl.nan) :
    (Fl.lt x y = true ∧ Fl.beq x y = false ∧ Fl.lt y x = false) ∨
    (Fl.lt x y = false ∧ Fl.beq x y = true ∧ Fl.lt y x = false) ∨
    (Fl.lt x y = false ∧ Fl.beq x y = false ∧ Fl.lt y x = true) := by
  cases x with
  | nan => exact absurd rfl hx
  | posInf =>
    cases y with
    | nan => exact absurd rfl hy
    | posInf => exact Or.inr (Or.inl (by decide))
    | negInf => exact Or.inr (Or.inr (by decide))
    | finite b => exact Or.inr (Or.inr (by simp [Fl.lt, Fl.beq]))
  | negInf =>
    cases y with
    | nan => exact absurd rfl hy
    | posInf => exact Or.inl (by decide)
    | negInf => exact Or.inr (Or.inl (by decide))
    | finite b => exact Or.inl (by simp [Fl.lt, Fl.beq])
  | finite a =>
    cases y with
    | nan => exact absurd rfl hy
    | posInf => exact Or.inl (by simp [Fl.lt, Fl.beq])
    | negInf => exact Or.inr (Or.inr (by simp [Fl.lt, Fl.beq]))
    | finite b =>
      rcases lt_trichotomy a b with h | h | h
      · exact Or.inl (by simp [Fl.lt, Fl.beq, h, ne_of_lt h, lt_asymm h])
      · subst h
        exact Or.inr (Or.inl (by simp [Fl.lt, Fl.beq]))
      · exact Or.inr (Or.inr (by simp [Fl.lt, Fl.beq, h, (ne_of_lt h).symm, lt_asymm h]))

/-- C6: for live instances of the same wrapper type under a NaN-rejecting
checker, the wrapper ordering is total: exactly one of less-than, equal,
greater-than holds. -/
theorem ordering_total (c : Checker) (a b : NoisyFloat c)
    (hnan : c.check Fl.nan = false)
    (ha : c.check a.value = true) (hb : c.check b.value = true) :
    (NoisyFloat.lt a b = true ∧ NoisyFloat.beq a b = false ∧ NoisyFloat.lt b a = false) ∨
    (NoisyFloat.lt a b = false ∧ NoisyFloat.beq a b = true ∧ NoisyFloat.lt b a = false) ∨
    (NoisyFloat.lt a b = false ∧ NoisyFloat.beq a b = false ∧ NoisyFloat.lt b a = true) :=
  fl_trichotomy a.value b.value (check_ne_nan hnan ha) (check_ne_nan hnan hb)

/-- Witness for ordering_total at the live values 1 and 2 under the
NaN-rejecting checker. -/
theorem ordering_total_witness :
    (NoisyFloat.lt (c := numChecker) { value := Fl.finite 1 } { value := Fl.finite 2 } = true ∧
     NoisyFloat.beq (c := numChecker) { value := Fl.finite 1 } { value := Fl.finite 2 } = false ∧
     NoisyFloat.lt (c := numChecker) { value := Fl.finite 2 } { value := Fl.finite 1 } = false) ∨
    (NoisyFloat.lt (c := numChecker) { value := Fl.finite 1 } { value := Fl.finite 2 } = false ∧
     NoisyFloat.beq (c := numChecker) { value := Fl.finite 1 } { value := Fl.finite 2 } = true ∧
     NoisyFloat.lt (c := numChecker) { value := Fl.finite 2 } { value := Fl.finite 1 } = false) ∨
    (NoisyFloat.lt (c := numChecker) { value := Fl.finite 1 } { value := Fl.finite 2 } = false ∧
     NoisyFloat.beq (c := numChecker) { value := Fl.finite 1 } { value := Fl.finite 2 } = false ∧
     NoisyFloat.lt (c := numChecker) { value := Fl.finite 2 } { value := Fl.finite 1 } = true) :=
  ordering_total numChecker { value := Fl.finite 1 } { value := Fl.finite 2 }
    (by decide) (by decide) (by decide)

/-- C7: for live instances under the same NaN-rejecting checker, wrapper
equality is reflexive, symmetric and transitive, and agrees with the
underlying native equality of the raw values. -/
theorem equality_equivalence (c : Checker) (a b d : NoisyFloat c)
    (hnan : c.check Fl.nan = false)
    (ha : c.check a.value = true) (hb : c.check b.value = true)
    (hd : c.check d.value = true) :
    NoisyFloat.beq a a = true ∧
    NoisyFloat.beq a b = NoisyFloat.beq b a ∧
    (NoisyFloat.beq a b = true → NoisyFloat.beq b d = true → NoisyFloat.beq a d = true) ∧
    NoisyFloat.beq a b = Fl.beq a.value b.value :=
  ⟨fl_beq_refl a.value (check_ne_nan hnan ha),
   fl_beq_symm a.value b.value,
   fun h1 h2 => fl_beq_trans h1 h2,
   rfl⟩

/-- Witness for equality_equivalence at three concrete live values under
the NaN-rejecting checker. -/
theorem equality_equivalence_witness :
    NoisyFloat.beq (c := numChecker) { value := Fl.finite 7 } { value := Fl.finite 7 } = true :=
  (equality_equivalence numChecker { value := Fl.finite 7 } { value := Fl.finite 7 }
    { value := Fl.finite 7 } (by decide) (by decide) (by decide) (by decide)).1

/-- C5 counterexample: the live instances 0.0 and 0.0 under the
NaN-rejecting checker have a zero divisor, yet their division fails
(0/0 is NaN) instead of succeeding with an infinity, matching the
crate's n64_nan should_panic test (src/lib.rs lines 210-214). -/
theorem nan_div_zero_by_zero_fails :
    numChecker.check (Fl.finite 0) = true ∧
    NoisyFloat.div (c := numChecker) { value := Fl.finite 0 } { value := Fl.finite 0 } = none := by
  decide

/-- C5 (amended): for live instances under the finite-only checker,
division by a zero divisor always fails; under the NaN-rejecting checker,
division of a live instance with nonzero raw value by a zero divisor
succeeds and yields a wrapper holding an infinite value (when the
dividend is also zero the native result is NaN and the division fails
instead). -/
theorem div_closure :
    (∀ a b : NoisyFloat finiteChecker,
      finiteChecker.check a.value = true → b.value = Fl.finite 0 →
      NoisyFloat.div a b = none) ∧
    (∀ a b : NoisyFloat numChecker,
      numChecker.check a.value = true → b.value = Fl.finite 0 →
      a.value ≠ Fl.finite 0 →
      ∃ w : NoisyFloat numChecker,
        NoisyFloat.div a b = some w ∧ w.value.isInfinite = true) := by
  constructor
  · intro a b ha hb
    obtain ⟨va⟩ := a
    obtain ⟨vb⟩ := b
    simp only at ha hb
    subst hb
    cases va with
    | finite q =>
      show NoisyFloat.new finiteChecker (Fl.div (Fl.finite q) (Fl.finite 0)) = none
      by_cases hq : q = 0
      · simp [Fl.div, hq, NoisyFloat.new, Checker.assert, finiteChecker, Fl.isFinite]
      · by_cases hq2 : q > 0 <;>
          simp [Fl.div, hq, hq2, NoisyFloat.new, Checker.assert, finiteChecker, Fl.isFinite]
    | posInf => simp [finiteChecker, Fl.isFinite] at ha
    | negInf => simp [finiteChecker, Fl.isFinite] at ha
    | nan => simp [finiteChecker, Fl.isFinite] at ha
  · intro a b ha hb hz
    obtain ⟨va⟩ := a
    obtain ⟨vb⟩ := b
    simp only at ha hb hz
    subst hb
    cases va with
    | finite q =>
      have hq : q ≠ 0 := by
        intro h
        exact hz (by rw [h])
      refine ⟨{ value := if q > 0 then Fl.posInf else Fl.negInf }, ?_, ?_⟩
      · show NoisyFloat.new numChecker (Fl.div (Fl.finite q) (Fl.finite 0)) = _
        by_cases hq2 : q > 0 <;>
          simp [Fl.div, hq, hq2, NoisyFloat.new, Checker.assert, numChecker,
            Fl.isNaN, NoisyFloat.unchecked_new]
      · by_cases hq2 : q > 0 <;> simp [hq2, Fl.isInfinite]
    | posInf =>
      refine ⟨{ value := Fl.posInf }, ?_, rfl⟩
      show NoisyFloat.new numChecker (Fl.div Fl.posInf (Fl.finite 0)) = _
      simp [Fl.div, NoisyFloat.new, Checker.assert, numChecker, Fl.isNaN,
        NoisyFloat.unchecked_new]
    | negInf =>
      refine ⟨{ value := Fl.negInf }, ?_, rfl⟩
      show NoisyFloat.new numChecker (Fl.div Fl.negInf (Fl.finite 0)) = _
      simp [Fl.div, NoisyFloat.new, Checker.assert, numChecker, Fl.isNaN,
        NoisyFloat.unchecked_new]
    | nan => simp [numChecker, Fl.isNaN] at ha

/-- Witness for div_closure: 1.0 divided by 0.0 fails under the
finite-only checker and yields an infinite value under the NaN-rejecting
checker. -/
theorem div_closure_witness :
    NoisyFloat.div (c := finiteChecker) { value := Fl.finite 1 } { value := Fl.finite 0 } = none ∧
    ∃ w : NoisyFloat numChecker,
      NoisyFloat.div (c := numChecker) { value := Fl.finite 1 } { value := Fl.finite 0 } = some w ∧
      w.value.isInfinite = true :=
  ⟨div_closure.1 { value := Fl.finite 1 } { value := Fl.finite 0 } (by decide) rfl,
   div_closure.2 { value := Fl.finite 1 } { value := Fl.finite 0 } (by decide) rfl (by decide)⟩

/-- C8: each of the four formatting operations on a wrapper produces
exactly the output the underlying formatting behavior produces on the
raw value, and the output never depends on the checker (formatting
invokes neither check nor assert): wrappers with equal raw values format
identically under any two checkers. -/
theorem formatting_delegates :
    ∀ (ff : FloatFmt) (c : Checker) (x : NoisyFloat c),
      (NoisyFloat.fmtDebug ff x = ff.debugStr x.raw ∧
       NoisyFloat.fmtDisplay ff x = ff.displayStr x.raw ∧
       NoisyFloat.fmtLowerExp ff x = ff.lowerExpStr x.raw ∧
       NoisyFloat.fmtUpperExp ff x = ff.upperExpStr x.raw) ∧
      ∀ (c2 : Checker) (y : NoisyFloat c2), x.value = y.value →
        (NoisyFloat.fmtDebug ff x = NoisyFloat.fmtDebug ff y ∧
         NoisyFloat.fmtDisplay ff x = NoisyFloat.fmtDisplay ff y ∧
         NoisyFloat.fmtLowerExp ff x = NoisyFloat.fmtLowerExp ff y ∧
         NoisyFloat.fmtUpperExp ff x = NoisyFloat.fmtUpperExp ff y) := by
  intro ff c x
  refine ⟨⟨rfl, rfl, rfl, rfl⟩, ?_⟩
  intro c2 y h
  unfold NoisyFloat.fmtDebug NoisyFloat.fmtDisplay NoisyFloat.fmtLowerExp
    NoisyFloat.fmtUpperExp
  rw [h]
  exact ⟨rfl, rfl, rfl, rfl⟩

/-- Witness for formatting_delegates: the same raw value held under the
NaN-rejecting checker and under the finite-only checker formats
identically through all four operations. -/
theorem formatting_delegates_witness :
    NoisyFloat.fmtDebug constFmt ({ value := Fl.finite 1 } : NoisyFloat numChecker) =
      NoisyFloat.fmtDebug constFmt ({ value := Fl.finite 1 } : NoisyFloat finiteChecker) ∧
    NoisyFloat.fmtDisplay constFmt ({ value := Fl.finite 1 } : NoisyFloat numChecker) =
      NoisyFloat.fmtDisplay constFmt ({ value := Fl.finite 1 } : NoisyFloat finiteChecker) ∧
    NoisyFloat.fmtLowerExp constFmt ({ value := Fl.finite 1 } : NoisyFloat numChecker) =
      NoisyFloat.fmtLowerExp constFmt ({ value := Fl.finite 1 } : NoisyFloat finiteChecker) ∧
    NoisyFloat.fmtUpperExp constFmt ({ value := Fl.finite 1 } : NoisyFloat numChecker) =
      NoisyFloat.fmtUpperExp constFmt ({ value := Fl.finite 1 } : NoisyFloat finiteChecker) :=
  (formatting_delegates constFmt numChecker { value := Fl.finite 1 }).2
    finiteChecker { value := Fl.finite 1 } rfl

/-- C9: over the sequence 3.0, -1.5, 71.3, +infinity of wrappers built
under the NaN-rejecting checker, the minimum is the wrapper holding -1.5
and the maximum is the wrapper holding positive infinity, matching the
crate's doc example (src/lib.rs lines 55-61). -/
theorem min_max_example :
    nfMin exampleValues = some { value := Fl.finite (mkRat (-3) 2) } ∧
    nfMax exampleValues = some { value := Fl.posInf } := by
  decide
